import Mathlib

/-!
Shallow embedding of the interactive judge CLI session engine
(source file: src/dmoj/cli.py).

The embedding models the globals `submission_id_counter` and
`graded_submissions` as an explicit state record, the external
collaborators (problem catalog, executor catalog, filesystem, external
editor, startup-warnings queue) as an environment record, and each
command's `execute` method as a function from environment, state and
parsed arguments to a step result.  A step result is either a
successful dispatch (new state plus the grading request handed to
`judge.begin_grading`), a soft error (message printed, session loop
continues), or a crash (an exception the session loop does not catch,
fatal to the session).

Time limits are Python floats used only for comparison with zero and
passed through unchanged; they are embedded as rationals, which is
exact for every operation the code performs on them.
-/

/-- One entry of `graded_submissions`: the tuple
`(problem_id, language_id, src, time_limit, memory_limit)`. -/
structure Submission where
  problem_id : String
  language_id : String
  source : String
  time_limit : Rat
  memory_limit : Int
deriving DecidableEq

/-- The argument tuple of a `judge.begin_grading(...)` call: submission id,
the five submission fields, and the two boolean flags passed positionally
(`False, False` for interactive submissions). -/
structure GradeReq where
  id : Nat
  problem_id : String
  language_id : String
  source : String
  time_limit : Rat
  memory_limit : Int
  is_pretested : Bool
  blocking_flag : Bool
deriving DecidableEq

/-- The session-wide mutable state: the module globals
`submission_id_counter` and `graded_submissions`. -/
structure St where
  submission_id_counter : Nat
  graded_submissions : List Submission
deriving DecidableEq

/-- External collaborators of the command layer:
`problems` are the first components of `judgeenv.get_supported_problems()`;
`executors` is the executor catalog keyed by language id;
`readFile f` is the content of file `f` (none on an IO error);
`editorLaunches` says whether `subprocess.call(["nano", path])` succeeds;
`editorWrite` is the text the operator leaves in an initially empty buffer;
`editorEdit` maps a seeded buffer to the text left after editing;
`warningsDeleted` records that `main` ran `del judgeenv.startup_warnings`
before the session loop (always true in a real session). -/
structure Env where
  problems : List String
  executors : List String
  readFile : String → Option String
  editorLaunches : Bool
  editorWrite : String
  editorEdit : String → String
  warningsDeleted : Bool

/-- Result of executing one command from the session loop. -/
inductive StepRes where
  | ok (st : St) (req : GradeReq)
  | soft (st : St) (msg : String)
  | crash (st : St) (msg : String)
deriving DecidableEq

/-- The session state after a step, whatever the outcome. -/
def StepRes.state : StepRes → St
  | .ok st _ => st
  | .soft st _ => st
  | .crash st _ => st

/-- Python list subscription `l[i]` with negative-index wraparound:
`some` element on success, `none` on `IndexError`. -/
def pyIndex {α : Type} (l : List α) (i : Int) : Option α :=
  let j : Int := if i < 0 then (l.length : Int) + i else i
  if j < 0 then none else l[j.toNat]?

/-- The shared ledger lookup `graded_submissions[id - 1]` used by
`resubmit`, `rejudge`, `diff` and `show`. -/
def ledgerLookup (ledger : List Submission) (id : Int) : Option Submission :=
  pyIndex ledger (id - 1)

/-- Build the `begin_grading` request for a submission record. -/
def reqOf (id : Nat) (s : Submission) : GradeReq :=
  ⟨id, s.problem_id, s.language_id, s.source, s.time_limit, s.memory_limit, false, false⟩

/-- Python `str.split` on a single dot, on character lists: splits at
every occurrence, keeping empty pieces (`""` yields `[""]`). -/
def pySplitDotChars : List Char → List (List Char)
  | [] => [[]]
  | c :: rest =>
    match pySplitDotChars rest with
    | [] => [[c]]
    | g :: gs => if c = '.' then [] :: g :: gs else (c :: g) :: gs

/-- Python `source_file.split(".")`. -/
def pySplitDot (s : String) : List String :=
  (pySplitDotChars s.data).map String.mk

/-- Python `str.upper()` (ASCII case mapping, which is all the extension
table needs). -/
def pyUpper (s : String) : String :=
  String.mk (s.data.map Char.toUpper)

/-- Parsed arguments of the `submit` command.  `language_id` defaults to
the one-space sentinel `" "`, `time_limit` to `2.0` seconds and
`memory_limit` to `65536` KB, as in `SubmitCommand._populate_parser`. -/
structure SubmitArgs where
  problem_id : String
  source_file : Option String
  language_id : String := " "
  time_limit : Rat := 2
  memory_limit : Int := 65536
deriving DecidableEq

/-- Result of the validation / language-resolution phase of `submit`:
either an uncaught exception, or an optional error message together with
the resolved language id. -/
inductive LangRes where
  | crashed (msg : String)
  | res (err : Option String) (language_id : String)
deriving DecidableEq

/-- The `err` chain of `SubmitCommand.execute` (cli.py lines 195-225):
problem membership, then — only when the language option kept its `" "`
default — extension-based inference via `source_file.split(".")` (a name
with exactly one dot is required; any other shape raises an uncaught
`AttributeError` because `ext` is still `None` when `ext.upper()` runs),
and only in the explicit-language branch the executor-membership, time
and memory checks of the trailing `elif`s. -/
def submitValidate (env : Env) (a : SubmitArgs) : LangRes :=
  if a.problem_id ∈ env.problems then
    if a.language_id = " " then
      match a.source_file with
      | some sf =>
        if sf = "" then .res (some "no language is selected") a.language_id
        else
          match pySplitDot sf with
          | [_, e] =>
            let ext := pyUpper e
            if ext = "PY" then .res none "PY2"
            else if ext = "CPP" then .res none "CPP14"
            else if ext = "JAVA" then .res none "JAVA9"
            else if ext = "" then .res (some ("unknown language " ++ a.language_id)) a.language_id
            else .res none ext
          | _ => .crashed "AttributeError: NoneType object has no attribute upper"
      | none => .res (some "no language is selected") a.language_id
    else if a.language_id ∈ env.executors then
      if a.time_limit ≤ 0 then .res (some "--time-limit must be >= 0") a.language_id
      else if a.memory_limit ≤ 0 then .res (some "--memory-limit must be >= 0") a.language_id
      else .res none a.language_id
    else .res (some ("unknown language " ++ a.language_id)) a.language_id
  else .res (some ("unknown problem " ++ a.problem_id)) a.language_id

/-- Result of acquiring the source text. -/
inductive SrcRes where
  | crashSrc (msg : String)
  | errSrc (msg : String)
  | okSrc (text : String)
deriving DecidableEq

/-- The editor branch of `submit` (empty temporary file, `nano`, read
back).  If the editor cannot launch, the handler iterates
`judgeenv.startup_warnings`, which `main` deleted, raising an uncaught
`AttributeError`; even were it not deleted, `src` is left unbound and the
subsequent append raises `NameError`.  Either way the session crashes. -/
def submitEditor (env : Env) : SrcRes :=
  if env.editorLaunches then .okSrc env.editorWrite
  else if env.warningsDeleted then
    .crashSrc "AttributeError: module dmoj.judgeenv has no attribute startup_warnings"
  else .crashSrc "NameError: name src is not defined"

/-- Source acquisition of `SubmitCommand.execute` (cli.py lines 227-243):
read the given file, or run the editor session when no (truthy) source
file was given. -/
def submitAcquireSource (env : Env) (a : SubmitArgs) : SrcRes :=
  match a.source_file with
  | some sf =>
    if sf = "" then submitEditor env
    else
      match env.readFile sf with
      | some text => .okSrc text
      | none => .errSrc ("could not read file " ++ sf)
  | none => submitEditor env

/-- `SubmitCommand.execute` (cli.py lines 185-252): validate, acquire the
source, and on success increment `submission_id_counter`, append the new
record to `graded_submissions` and call `begin_grading` with the counter
value as the submission id. -/
def SubmitCommand.execute (env : Env) (st : St) (a : SubmitArgs) : StepRes :=
  match submitValidate env a with
  | .crashed m => .crash st m
  | .res (some e) _ => .soft st e
  | .res none language_id =>
    match submitAcquireSource env a with
    | .crashSrc m => .crash st m
    | .errSrc e => .soft st e
    | .okSrc src =>
      let sub : Submission := ⟨a.problem_id, language_id, src, a.time_limit, a.memory_limit⟩
      .ok ⟨st.submission_id_counter + 1, st.graded_submissions ++ [sub]⟩
        (reqOf (st.submission_id_counter + 1) sub)

/-- Parsed arguments of the `resubmit` command; each override option
defaults to absent. -/
structure ResubmitArgs where
  submission_id : Int
  problem : Option String := none
  language : Option String := none
  time_limit : Option Rat := none
  memory_limit : Option Int := none
deriving DecidableEq

/-- Python `override or base` for an optional string option: the
override is used only when present and truthy (nonempty). -/
def pyOrStr (o : Option String) (d : String) : String :=
  match o with
  | some s => if s = "" then d else s
  | none => d

/-- Python `override or base` for an optional float option: the override
is used only when present and truthy (nonzero). -/
def pyOrRat (o : Option Rat) (d : Rat) : Rat :=
  match o with
  | some x => if x = 0 then d else x
  | none => d

/-- Python `override or base` for an optional int option: the override is
used only when present and truthy (nonzero). -/
def pyOrInt (o : Option Int) (d : Int) : Int :=
  match o with
  | some x => if x = 0 then d else x
  | none => d

/-- The editor branch of `resubmit`: the temporary file is seeded with
the base record's source.  On launch failure the handler hits the same
deleted `judgeenv.startup_warnings` (uncaught `AttributeError`); were the
queue still present, the warnings would print and `src` would keep the
seeded base text, so execution would continue. -/
def resubmitEditor (env : Env) (seed : String) : SrcRes :=
  if env.editorLaunches then .okSrc (env.editorEdit seed)
  else if env.warningsDeleted then
    .crashSrc "AttributeError: module dmoj.judgeenv has no attribute startup_warnings"
  else .okSrc seed

/-- `ResubmitCommand.execute` (cli.py lines 269-312): the counter is
incremented before the ledger lookup, so a failed resubmit still bumps
it; overrides are merged with Python `or`; validation mirrors the
explicit-language chain of `submit`; the edited source is appended as a
new record and dispatched under the pre-incremented counter. -/
def ResubmitCommand.execute (env : Env) (st : St) (a : ResubmitArgs) : StepRes :=
  let st1 : St := ⟨st.submission_id_counter + 1, st.graded_submissions⟩
  match ledgerLookup st.graded_submissions a.submission_id with
  | none => .soft st1 ("invalid submission " ++ toString (a.submission_id - 1))
  | some base =>
    let pid := pyOrStr a.problem base.problem_id
    let lang := pyOrStr a.language base.language_id
    let tl := pyOrRat a.time_limit base.time_limit
    let ml := pyOrInt a.memory_limit base.memory_limit
    if pid ∈ env.problems then
      if lang ∈ env.executors then
        if tl ≤ 0 then .soft st1 "--time-limit must be >= 0"
        else if ml ≤ 0 then .soft st1 "--memory-limit must be >= 0"
        else
          match resubmitEditor env base.source with
          | .crashSrc m => .crash st1 m
          | .errSrc e => .soft st1 e
          | .okSrc src =>
            let sub : Submission := ⟨pid, lang, src, tl, ml⟩
            .ok ⟨st.submission_id_counter + 1, st.graded_submissions ++ [sub]⟩
              (reqOf (st.submission_id_counter + 1) sub)
      else .soft st1 ("unknown language " ++ lang)
    else .soft st1 ("unknown problem " ++ pid)

/-- Parsed arguments of the `rejudge` command. -/
structure RejudgeArgs where
  submission_id : Int
deriving DecidableEq

/-- `RejudgeCommand.execute` (cli.py lines 322-331): look the record up
and re-dispatch its stored fields verbatim under the current value of
`submission_id_counter`; no validation, no editor, no append, no counter
change. -/
def RejudgeCommand.execute (_env : Env) (st : St) (a : RejudgeArgs) : StepRes :=
  match ledgerLookup st.graded_submissions a.submission_id with
  | none => .soft st ("invalid submission " ++ toString (a.submission_id - 1))
  | some s => .ok st (reqOf st.submission_id_counter s)

/-- `ListSubmissionsCommand.execute` (cli.py lines 342-353): `none` for
the ValidationError on a non-positive limit, otherwise the rows printed,
which are `graded_submissions[:limit]` when a limit is given and the
whole ledger when not. -/
def ListSubmissionsCommand.execute (ledger : List Submission) (limit : Option Int) :
    Option (List Submission) :=
  match limit with
  | some l => if l ≤ 0 then none else some (ledger.take l.toNat)
  | none => some ledger

/-- `DifferenceCommand.get_data` (cli.py lines 364-381): parse the token
as an integer and index the ledger, else read it as a path; returns
`(source text or none, error message or none)`. -/
def DifferenceCommand.get_data (env : Env) (ledger : List Submission) (tok : String) :
    Option String × Option String :=
  match tok.toInt? with
  | some i =>
    match ledgerLookup ledger i with
    | some s => (some s.source, none)
    | none => (none, some ("invalid submission " ++ toString (i - 1)))
  | none =>
    match env.readFile tok with
    | some text => (some text, none)
    | none => (none, some "IOError")

/-- A submit or resubmit command line, for reasoning about whole
sessions. -/
inductive Cmd where
  | submit (a : SubmitArgs)
  | resubmit (a : ResubmitArgs)
deriving DecidableEq

/-- Whether a command is a `resubmit`. -/
def Cmd.isResubmit : Cmd → Bool
  | .submit _ => false
  | .resubmit _ => true

/-- Execute one command against the session state. -/
def stepCmd (env : Env) (st : St) : Cmd → StepRes
  | .submit a => SubmitCommand.execute env st a
  | .resubmit a => ResubmitCommand.execute env st a

/-- Run a sequence of submit/resubmit commands: final state, the grading
requests dispatched in order, and a flag that is `true` exactly when no
`resubmit` command failed (softly or by crashing).  A crash ends the
session. -/
def runSession (env : Env) : St → List Cmd → St × List GradeReq × Bool
  | st, [] => (st, [], true)
  | st, c :: rest =>
    match stepCmd env st c with
    | .ok st2 req =>
      let r := runSession env st2 rest
      (r.1, req :: r.2.1, r.2.2)
    | .soft st2 _ =>
      let r := runSession env st2 rest
      (r.1, r.2.1, r.2.2 && !c.isResubmit)
    | .crash st2 _ => (st2, [], !c.isResubmit)

/-- The state at session start: counter `0`, empty ledger. -/
def initSt : St := ⟨0, []⟩

/-! ## Helper lemmas -/

/-- For a positive id the Python subscription takes the non-negative
branch: `ledger[id - 1]` is a plain zero-based lookup. -/
theorem ledgerLookup_pos {α : Type} (l : List α) (k : Int) (h : 1 ≤ k) :
    pyIndex l (k - 1) = l[(k - 1).toNat]? := by
  unfold pyIndex
  have h1 : ¬ (k - 1 < 0) := by omega
  simp [h1]

/-- A `submit` command either reports an error or crashes leaving the
state untouched, or appends exactly one record while incrementing the
counter by one, dispatching the new record under the new counter
value. -/
theorem submit_execute_cases (env : Env) (st : St) (a : SubmitArgs) :
    (∃ m, SubmitCommand.execute env st a = .soft st m) ∨
    (∃ m, SubmitCommand.execute env st a = .crash st m) ∨
    (∃ sub, SubmitCommand.execute env st a =
      .ok ⟨st.submission_id_counter + 1, st.graded_submissions ++ [sub]⟩
          (reqOf (st.submission_id_counter + 1) sub)) := by
  unfold SubmitCommand.execute
  cases hv : submitValidate env a with
  | crashed m => exact Or.inr (Or.inl ⟨m, rfl⟩)
  | res err lang =>
    cases err with
    | some e => exact Or.inl ⟨e, rfl⟩
    | none =>
      cases hs : submitAcquireSource env a with
      | crashSrc m => exact Or.inr (Or.inl ⟨m, rfl⟩)
      | errSrc e => exact Or.inl ⟨e, rfl⟩
      | okSrc src =>
        exact Or.inr (Or.inr ⟨⟨a.problem_id, lang, src, a.time_limit, a.memory_limit⟩, rfl⟩)

/-- A `resubmit` command always increments the counter first; it then
either stops with an error or crash without touching the ledger, or
appends exactly one record and dispatches it under the incremented
counter. -/
theorem resubmit_execute_cases (env : Env) (st : St) (a : ResubmitArgs) :
    (∃ m, ResubmitCommand.execute env st a
        = .soft ⟨st.submission_id_counter + 1, st.graded_submissions⟩ m) ∨
    (∃ m, ResubmitCommand.execute env st a
        = .crash ⟨st.submission_id_counter + 1, st.graded_submissions⟩ m) ∨
    (∃ sub, ResubmitCommand.execute env st a =
      .ok ⟨st.submission_id_counter + 1, st.graded_submissions ++ [sub]⟩
          (reqOf (st.submission_id_counter + 1) sub)) := by
  unfold ResubmitCommand.execute
  cases hl : ledgerLookup st.graded_submissions a.submission_id with
  | none => exact Or.inl ⟨_, rfl⟩
  | some base =>
    dsimp only
    split
    · split
      · split
        · exact Or.inl ⟨_, rfl⟩
        · split
          · exact Or.inl ⟨_, rfl⟩
          · cases he : resubmitEditor env base.source with
            | crashSrc m => exact Or.inr (Or.inl ⟨m, rfl⟩)
            | errSrc e => exact Or.inl ⟨e, rfl⟩
            | okSrc src => exact Or.inr (Or.inr ⟨_, rfl⟩)
      · exact Or.inl ⟨_, rfl⟩
    · exact Or.inl ⟨_, rfl⟩

/-- Invariant of `runSession`: starting from a state whose counter
matches its ledger length, a run in which no resubmit fails keeps the
counter equal to the ledger length, dispatches ids consecutively from
the starting counter plus one, and grows the ledger by one entry per
dispatch. -/
theorem runSession_counter_inv (env : Env) (cmds : List Cmd) :
    ∀ st : St, st.submission_id_counter = st.graded_submissions.length →
      (runSession env st cmds).2.2 = true →
      (runSession env st cmds).1.submission_id_counter
          = (runSession env st cmds).1.graded_submissions.length
      ∧ (runSession env st cmds).2.1.map GradeReq.id
          = List.range' (st.submission_id_counter + 1) (runSession env st cmds).2.1.length
      ∧ (runSession env st cmds).1.graded_submissions.length
          = st.graded_submissions.length + (runSession env st cmds).2.1.length := by
  induction cmds with
  | nil =>
    intro st h0 _
    simp [runSession, h0]
  | cons c rest ih =>
    intro st h0 hflag
    cases c with
    | submit a =>
      rcases submit_execute_cases env st a with ⟨m, hm⟩ | ⟨m, hm⟩ | ⟨sub, hm⟩
      · simp only [runSession, stepCmd, hm, Cmd.isResubmit, Bool.not_false, Bool.and_true] at hflag ⊢
        exact ih st h0 hflag
      · simp only [runSession, stepCmd, hm, Cmd.isResubmit, Bool.not_false] at hflag ⊢
        simp [h0]
      · have h0' : (St.mk (st.submission_id_counter + 1) (st.graded_submissions ++ [sub])).submission_id_counter
            = (St.mk (st.submission_id_counter + 1) (st.graded_submissions ++ [sub])).graded_submissions.length := by
          simp [h0]
        simp only [runSession, stepCmd, hm] at hflag ⊢
        obtain ⟨ih1, ih2, ih3⟩ := ih _ h0' hflag
        refine ⟨ih1, ?_, ?_⟩
        · simp only [List.map_cons, List.length_cons, List.range'_succ, ih2, reqOf]
        · have h3 := ih3
          simp only [List.length_cons, List.length_append, List.length_nil] at h3 ⊢
          omega
    | resubmit a =>
      rcases resubmit_execute_cases env st a with ⟨m, hm⟩ | ⟨m, hm⟩ | ⟨sub, hm⟩
      · simp [runSession, stepCmd, hm, Cmd.isResubmit] at hflag
      · simp [runSession, stepCmd, hm, Cmd.isResubmit] at hflag
      · have h0' : (St.mk (st.submission_id_counter + 1) (st.graded_submissions ++ [sub])).submission_id_counter
            = (St.mk (st.submission_id_counter + 1) (st.graded_submissions ++ [sub])).graded_submissions.length := by
          simp [h0]
        simp only [runSession, stepCmd, hm] at hflag ⊢
        obtain ⟨ih1, ih2, ih3⟩ := ih _ h0' hflag
        refine ⟨ih1, ?_, ?_⟩
        · simp only [List.map_cons, List.length_cons, List.range'_succ, ih2, reqOf]
        · have h3 := ih3
          simp only [List.length_cons, List.length_append, List.length_nil] at h3 ⊢
          omega

/-! ## Concrete fixtures -/

/-- A submission record used in concrete instances. -/
def subP : Submission := ⟨"AMOEBA", "PY2", "print(1)", 2, 65536⟩

/-- A test environment: one problem, one executor, one readable source
file, a working editor, and the startup-warnings queue already deleted,
as in a real session. -/
def envW : Env :=
  { problems := ["AMOEBA"], executors := ["PY2"],
    readFile := fun s => if s = "sol.py" then some "print(1)" else none,
    editorLaunches := true, editorWrite := "print(2)", editorEdit := id,
    warningsDeleted := true }

/-- A session with a failing resubmit between two successful submits. -/
def cmdsFailingResubmit : List Cmd :=
  [.submit { problem_id := "AMOEBA", source_file := some "sol.py", language_id := "PY2" },
   .resubmit { submission_id := 99 },
   .submit { problem_id := "AMOEBA", source_file := some "sol.py", language_id := "PY2" }]

/-- A session of one successful submit followed by one successful
resubmit. -/
def cmdsAllOk : List Cmd :=
  [.submit { problem_id := "AMOEBA", source_file := some "sol.py", language_id := "PY2" },
   .resubmit { submission_id := 1, time_limit := some 5 }]

/-! ## C1 -/

/-- C1 is false as stated: in the session
`[submit (ok), resubmit 99 (fails), submit (ok)]` the failed resubmit
increments `submission_id_counter` without appending, so the second
appended submission sits at ledger position 2 but is dispatched to the
grading engine with id 3, and the counter (3) no longer matches the
ledger length (2). -/
theorem c1_counterexample :
    (runSession envW initSt cmdsFailingResubmit).2.1.map GradeReq.id = [1, 3]
    ∧ (runSession envW initSt cmdsFailingResubmit).1.graded_submissions.length = 2
    ∧ (runSession envW initSt cmdsFailingResubmit).1.submission_id_counter = 3
    ∧ (runSession envW initSt cmdsFailingResubmit).1.submission_id_counter
        ≠ (runSession envW initSt cmdsFailingResubmit).1.graded_submissions.length := by
  refine ⟨by decide, by decide, by decide, by decide⟩

/-- C1 (amended): for every sequence of submit and resubmit commands in
one session in which no resubmit command fails, the counter matches the
ledger length after the run, the ids dispatched to the grading engine
are consecutively `1, 2, …` in dispatch order, and each dispatched
submission's id equals its 1-based ledger position (one appended entry
per dispatch, in order).  Submit commands may fail freely: a failed
submit changes neither the counter nor the ledger. -/
theorem c1_session_ids (env : Env) (cmds : List Cmd)
    (h : (runSession env initSt cmds).2.2 = true) :
    (runSession env initSt cmds).1.submission_id_counter
        = (runSession env initSt cmds).1.graded_submissions.length
    ∧ (runSession env initSt cmds).2.1.map GradeReq.id
        = List.range' 1 (runSession env initSt cmds).2.1.length
    ∧ (runSession env initSt cmds).1.graded_submissions.length
        = (runSession env initSt cmds).2.1.length := by
  have h0 : initSt.submission_id_counter = initSt.graded_submissions.length := rfl
  obtain ⟨h1, h2, h3⟩ := runSession_counter_inv env cmds initSt h0 h
  exact ⟨h1, h2, by simpa [initSt] using h3⟩

/-- Witness for C1: a concrete session (submit then resubmit, both
successful) satisfying the hypothesis and the conclusion. -/
theorem c1_session_ids_witness :
    (runSession envW initSt cmdsAllOk).2.2 = true
    ∧ ((runSession envW initSt cmdsAllOk).1.submission_id_counter
          = (runSession envW initSt cmdsAllOk).1.graded_submissions.length
      ∧ (runSession envW initSt cmdsAllOk).2.1.map GradeReq.id
          = List.range' 1 (runSession envW initSt cmdsAllOk).2.1.length
      ∧ (runSession envW initSt cmdsAllOk).1.graded_submissions.length
          = (runSession envW initSt cmdsAllOk).2.1.length) :=
  ⟨by decide, c1_session_ids envW cmdsAllOk (by decide)⟩

/-! ## C2 -/

/-- C2 is false as stated: with one ledger entry, a lookup at id 0 —
which the claim requires to fail with an addressing error because
`0 < 1` — silently succeeds and returns the (last) entry, because the
Python subscription `ledger[0 - 1] = ledger[-1]` wraps around. -/
theorem c2_counterexample :
    ledgerLookup [subP] 0 = some subP ∧ ¬ (1 ≤ (0 : Int)) := by
  refine ⟨by decide, by decide⟩

/-- C2 (amended): a ledger lookup with integer id succeeds and returns
the id-th appended record iff `1 ≤ id ≤ length`; additionally, for
`1 - length ≤ id ≤ 0` it silently succeeds with the `(length + id)`-th
record (Python negative indexing) instead of failing; only for
`id > length` or `id < 1 - length` does it fail, which the commands
report as an addressing-error message. -/
theorem c2_lookup_range (ledger : List Submission) (id : Int) :
    (1 ≤ id → id ≤ (ledger.length : Int) →
      ledgerLookup ledger id = ledger[(id - 1).toNat]?
      ∧ (ledgerLookup ledger id).isSome = true)
  ∧ (1 - (ledger.length : Int) ≤ id → id ≤ 0 →
      ledgerLookup ledger id = ledger[((ledger.length : Int) + id - 1).toNat]?
      ∧ (ledgerLookup ledger id).isSome = true)
  ∧ (((ledger.length : Int) < id ∨ id < 1 - (ledger.length : Int)) →
      ledgerLookup ledger id = none) := by
  refine ⟨fun h1 h2 => ?_, fun h1 h2 => ?_, fun h => ?_⟩
  · have e1 : ledgerLookup ledger id = ledger[(id - 1).toNat]? :=
      ledgerLookup_pos ledger id h1
    refine ⟨e1, ?_⟩
    rw [e1]
    have hlt : (id - 1).toNat < ledger.length := by omega
    rw [List.getElem?_eq_getElem hlt]
    rfl
  · unfold ledgerLookup pyIndex
    dsimp only
    have hb : id - 1 < 0 := by omega
    rw [if_pos hb]
    have hnn : ¬ ((ledger.length : Int) + (id - 1) < 0) := by omega
    rw [if_neg hnn]
    have heq : (ledger.length : Int) + (id - 1) = (ledger.length : Int) + id - 1 := by ring
    rw [heq]
    refine ⟨rfl, ?_⟩
    have hlt : ((ledger.length : Int) + id - 1).toNat < ledger.length := by omega
    rw [List.getElem?_eq_getElem hlt]
    rfl
  · rcases h with h | h
    · have h1 : 1 ≤ id := by omega
      have e1 : ledgerLookup ledger id = ledger[(id - 1).toNat]? :=
        ledgerLookup_pos ledger id h1
      rw [e1]
      exact List.getElem?_eq_none (by omega)
    · unfold ledgerLookup pyIndex
      dsimp only
      have hb : id - 1 < 0 := by omega
      rw [if_pos hb]
      have hneg : (ledger.length : Int) + (id - 1) < 0 := by omega
      rw [if_pos hneg]

/-- Witness for C2: the in-range conjunct at ledger `[subP]`, id 1. -/
theorem c2_lookup_range_witness :
    ledgerLookup [subP] 1 = ([subP] : List Submission)[((1 : Int) - 1).toNat]?
    ∧ (ledgerLookup [subP] 1).isSome = true :=
  (c2_lookup_range [subP] 1).1 (by decide) (by decide)

/-! ## C3 -/

/-- An environment whose executor catalog is empty, with a readable
source file whose extension is not in the inference table. -/
def envNoExec : Env :=
  { problems := ["P"], executors := [],
    readFile := fun s => if s = "sol.xyz" then some "code" else none,
    editorLaunches := true, editorWrite := "", editorEdit := id,
    warningsDeleted := true }

/-- C3 is false as stated: when the language is inferred from the file
extension, the `elif` chain of `SubmitCommand.execute` skips the
executor-membership, time-limit and memory-limit checks entirely, so
`submit P sol.xyz -tl 0` appends and dispatches a submission whose
language `XYZ` is not in the (empty) executor catalog and whose time
limit is not positive. -/
theorem c3_counterexample :
    SubmitCommand.execute envNoExec initSt
        { problem_id := "P", source_file := some "sol.xyz", time_limit := 0 }
      = .ok ⟨1, [⟨"P", "XYZ", "code", 0, 65536⟩]⟩ (reqOf 1 ⟨"P", "XYZ", "code", 0, 65536⟩)
    ∧ ("XYZ" ∈ envNoExec.executors → False)
    ∧ ¬ (0 < (0 : Rat)) := by
  refine ⟨by decide, by decide, by decide⟩

/-- C3 (amended): when the language id is supplied explicitly,
validation short-circuits in the order problem-in-catalog, then
language-in-executor-catalog, then `time_limit > 0`, then
`memory_limit > 0`, each failure leaving the state untouched; and an
explicit-language submission is appended and dispatched only if all four
checks pass.  (When the language is left to be inferred from the file
extension, only the problem check and the extension resolution run: the
inferred language is not checked against the executor catalog and the
limits are not checked, as the counterexample shows.)  An unknown
problem wins over everything, inference included. -/
theorem c3_validation_order (env : Env) (st : St) (a : SubmitArgs) :
    (a.problem_id ∉ env.problems →
      SubmitCommand.execute env st a = .soft st ("unknown problem " ++ a.problem_id))
  ∧ (a.problem_id ∈ env.problems → a.language_id ≠ " " → a.language_id ∉ env.executors →
      SubmitCommand.execute env st a = .soft st ("unknown language " ++ a.language_id))
  ∧ (a.problem_id ∈ env.problems → a.language_id ≠ " " → a.language_id ∈ env.executors →
      a.time_limit ≤ 0 →
      SubmitCommand.execute env st a = .soft st "--time-limit must be >= 0")
  ∧ (a.problem_id ∈ env.problems → a.language_id ≠ " " → a.language_id ∈ env.executors →
      0 < a.time_limit → a.memory_limit ≤ 0 →
      SubmitCommand.execute env st a = .soft st "--memory-limit must be >= 0")
  ∧ (∀ st2 req, a.language_id ≠ " " → SubmitCommand.execute env st a = .ok st2 req →
      a.problem_id ∈ env.problems ∧ a.language_id ∈ env.executors
        ∧ 0 < a.time_limit ∧ 0 < a.memory_limit) := by
  refine ⟨?_, ?_, ?_, ?_, ?_⟩
  · intro h
    unfold SubmitCommand.execute submitValidate
    rw [if_neg h]
  · intro h1 h2 h3
    unfold SubmitCommand.execute submitValidate
    rw [if_pos h1, if_neg h2, if_neg h3]
  · intro h1 h2 h3 h4
    unfold SubmitCommand.execute submitValidate
    rw [if_pos h1, if_neg h2, if_pos h3, if_pos h4]
  · intro h1 h2 h3 h4 h5
    unfold SubmitCommand.execute submitValidate
    rw [if_pos h1, if_neg h2, if_pos h3, if_neg (not_le.mpr h4), if_pos h5]
  · intro st2 req hlang hok
    by_cases hp : a.problem_id ∈ env.problems
    · by_cases hx : a.language_id ∈ env.executors
      · by_cases ht : a.time_limit ≤ 0
        · exfalso
          unfold SubmitCommand.execute submitValidate at hok
          rw [if_pos hp, if_neg hlang, if_pos hx, if_pos ht] at hok
          simp at hok
        · by_cases hm : a.memory_limit ≤ 0
          · exfalso
            unfold SubmitCommand.execute submitValidate at hok
            rw [if_pos hp, if_neg hlang, if_pos hx, if_neg ht, if_pos hm] at hok
            simp at hok
          · exact ⟨hp, hx, not_le.mp ht, not_le.mp hm⟩
      · exfalso
        unfold SubmitCommand.execute submitValidate at hok
        rw [if_pos hp, if_neg hlang, if_neg hx] at hok
        simp at hok
    · exfalso
      unfold SubmitCommand.execute submitValidate at hok
      rw [if_neg hp] at hok
      simp at hok

/-- Witness for C3: the time-limit conjunct fires on a concrete
explicit-language submit with a non-positive time limit. -/
theorem c3_validation_order_witness :
    SubmitCommand.execute envW initSt
        { problem_id := "AMOEBA", source_file := none, language_id := "PY2", time_limit := -1 }
      = .soft initSt "--time-limit must be >= 0" :=
  (c3_validation_order envW initSt
      { problem_id := "AMOEBA", source_file := none, language_id := "PY2", time_limit := -1
        }).2.2.1 (by decide) (by decide) (by decide) (by decide)

/-! ## C4 -/

/-- Oldest ledger entry in the C4 instance. -/
def subOld1 : Submission := ⟨"A1", "PY2", "a", 2, 65536⟩

/-- Middle ledger entry in the C4 instance. -/
def subOld2 : Submission := ⟨"A2", "PY2", "b", 2, 65536⟩

/-- Most recent ledger entry in the C4 instance. -/
def subNew3 : Submission := ⟨"A3", "PY2", "c", 2, 65536⟩

/-- C4 names a code bug: on a three-entry ledger, `submissions -l 2`
lists `graded_submissions[:2]` — the two oldest entries — not the two
most recent ones required by the claim and by the option's own help
text ("limit number of results by most recent").  Without a limit all
entries are returned. -/
theorem c4_limit_returns_oldest :
    ListSubmissionsCommand.execute [subOld1, subOld2, subNew3] (some 2)
      = some [subOld1, subOld2]
    ∧ [subOld1, subOld2] ≠ [subOld2, subNew3]
    ∧ (∀ ledger : List Submission, ListSubmissionsCommand.execute ledger none = some ledger) :=
  ⟨by decide, by decide, fun _ => rfl⟩

/-! ## C5 -/

/-- C5 names a code bug: `submit AMOEBA mysolution` (known problem,
language unspecified, filename without an extension) sets
`err = "invalid file"` in the bare `except`, but then unconditionally
runs `ext.upper()` with `ext` still `None`, raising an uncaught
`AttributeError`.  The session loop catches only
`InvalidCommandException`, so the session dies instead of printing a
validation error and re-prompting.  (Nothing is appended or dispatched,
but by crash, not by recovery.) -/
theorem c5_no_extension_crash :
    SubmitCommand.execute envW initSt
        { problem_id := "AMOEBA", source_file := some "mysolution" }
      = .crash initSt "AttributeError: NoneType object has no attribute upper" := by
  decide

/-! ## C6 -/

/-- C6: for every in-range id `k`, `rejudge k` re-dispatches exactly the
stored fields of ledger entry `k` (problem, language, source, limits)
under the current counter, changing neither the ledger nor the counter;
the result is the same for every environment, so no re-validation
against the current catalogs and no editor session occur. -/
theorem c6_rejudge_verbatim (env : Env) (st : St) (k : Int) (base : Submission)
    (h1 : 1 ≤ k)
    (hbase : st.graded_submissions[(k - 1).toNat]? = some base) :
    RejudgeCommand.execute env st ⟨k⟩ = .ok st (reqOf st.submission_id_counter base) := by
  have e1 : ledgerLookup st.graded_submissions k = some base :=
    (ledgerLookup_pos st.graded_submissions k h1).trans hbase
  unfold RejudgeCommand.execute
  simp only [e1]

/-- Witness for C6 at a one-entry ledger with counter 7. -/
theorem c6_rejudge_verbatim_witness :
    RejudgeCommand.execute envW ⟨7, [subP]⟩ ⟨1⟩ = .ok ⟨7, [subP]⟩ (reqOf 7 subP) :=
  c6_rejudge_verbatim envW ⟨7, [subP]⟩ 1 subP (by decide) (by decide)

/-! ## C7 -/

/-- C7: whatever a `resubmit` command does (fail its lookup, fail
validation, crash in the editor, or succeed with any overrides), the
ledger entry at any in-range position `k` afterwards is the same record
as before: resubmit only appends, never mutates. -/
theorem c7_resubmit_preserves_base (env : Env) (st : St) (a : ResubmitArgs) (k : Int)
    (h1 : 1 ≤ k) (h2 : k ≤ (st.graded_submissions.length : Int)) :
    ledgerLookup (ResubmitCommand.execute env st a).state.graded_submissions k
      = ledgerLookup st.graded_submissions k := by
  have hk : (k - 1).toNat < st.graded_submissions.length := by omega
  rcases resubmit_execute_cases env st a with ⟨m, hm⟩ | ⟨m, hm⟩ | ⟨sub, hm⟩ <;> rw [hm]
  · rfl
  · rfl
  · show pyIndex (st.graded_submissions ++ [sub]) (k - 1)
        = pyIndex st.graded_submissions (k - 1)
    rw [ledgerLookup_pos (st.graded_submissions ++ [sub]) k h1,
      ledgerLookup_pos st.graded_submissions k h1,
      List.getElem?_append_left hk]

/-- Witness for C7: entry 1 is unchanged by a successful resubmit with a
time-limit override. -/
theorem c7_resubmit_preserves_base_witness :
    ledgerLookup (ResubmitCommand.execute envW ⟨1, [subP]⟩
        { submission_id := 1, time_limit := some 5 }).state.graded_submissions 1
      = ledgerLookup [subP] 1 :=
  c7_resubmit_preserves_base envW ⟨1, [subP]⟩
    { submission_id := 1, time_limit := some 5 } 1 (by decide) (by decide)

/-! ## C8 -/

/-- C8 is false as stated: resubmitting entry 1 with the explicit
override `-tl 0` dispatches the base record's time limit `2`, not the
provided `0`, and no validation of the `0` happens — the Python
`args.time_limit or tl` merge silently drops falsy override values. -/
theorem c8_counterexample :
    ResubmitCommand.execute envW ⟨1, [subP]⟩ { submission_id := 1, time_limit := some 0 }
      = .ok ⟨2, [subP, subP]⟩ (reqOf 2 subP)
    ∧ (reqOf 2 subP).time_limit = 2
    ∧ (2 : Rat) ≠ 0 :=
  ⟨by decide, by decide, by decide⟩

/-- C8 (amended): on a successful resubmit, each field of the new
submission equals the override value when the corresponding option was
provided with a truthy value (a nonempty string, a nonzero number), and
equals the base record's field when the option was omitted — but also
when it was provided with a falsy value (empty string, or a time or
memory limit of `0`), which is silently ignored rather than applied and
validated; the new record carrying exactly these merged fields is
appended after the unchanged ledger. -/
theorem c8_override_merge (env : Env) (st : St) (a : ResubmitArgs) (base : Submission)
    (st2 : St) (req : GradeReq)
    (hbase : ledgerLookup st.graded_submissions a.submission_id = some base)
    (hok : ResubmitCommand.execute env st a = .ok st2 req) :
    req.problem_id = (match a.problem with
      | none => base.problem_id
      | some p => if p = "" then base.problem_id else p)
    ∧ req.language_id = (match a.language with
      | none => base.language_id
      | some s => if s = "" then base.language_id else s)
    ∧ req.time_limit = (match a.time_limit with
      | none => base.time_limit
      | some t => if t = 0 then base.time_limit else t)
    ∧ req.memory_limit = (match a.memory_limit with
      | none => base.memory_limit
      | some m => if m = 0 then base.memory_limit else m)
    ∧ st2.graded_submissions = st.graded_submissions
        ++ [⟨req.problem_id, req.language_id, req.source, req.time_limit, req.memory_limit⟩] := by
  unfold ResubmitCommand.execute at hok
  rw [hbase] at hok
  dsimp only at hok
  split at hok
  · split at hok
    · split at hok
      · exact absurd hok (by simp)
      · split at hok
        · exact absurd hok (by simp)
        · cases he : resubmitEditor env base.source with
          | crashSrc m => rw [he] at hok; exact absurd hok (by simp)
          | errSrc e => rw [he] at hok; exact absurd hok (by simp)
          | okSrc src =>
            rw [he] at hok
            obtain ⟨hst, hreq⟩ := StepRes.ok.inj hok
            subst hst
            subst hreq
            refine ⟨?_, ?_, ?_, ?_, rfl⟩
            · show pyOrStr a.problem base.problem_id = _
              cases a.problem with
              | none => rfl
              | some p => rfl
            · show pyOrStr a.language base.language_id = _
              cases a.language with
              | none => rfl
              | some s => rfl
            · show pyOrRat a.time_limit base.time_limit = _
              cases a.time_limit with
              | none => rfl
              | some t => rfl
            · show pyOrInt a.memory_limit base.memory_limit = _
              cases a.memory_limit with
              | none => rfl
              | some m => rfl
    · exact absurd hok (by simp)
  · exact absurd hok (by simp)

/-- The record produced by the C8 witness resubmit: time limit
overridden to 5, everything else from the base. -/
def subP5 : Submission := ⟨"AMOEBA", "PY2", "print(1)", 5, 65536⟩

/-- Witness for C8: resubmit with a truthy `-tl 5` override takes the 5,
keeps the base's other fields, and appends exactly that record. -/
theorem c8_override_merge_witness :
    (reqOf 2 subP5).problem_id = subP.problem_id
    ∧ (reqOf 2 subP5).language_id = subP.language_id
    ∧ (reqOf 2 subP5).time_limit = 5
    ∧ (reqOf 2 subP5).memory_limit = subP.memory_limit
    ∧ (St.mk 2 [subP, subP5]).graded_submissions = [subP]
        ++ [⟨(reqOf 2 subP5).problem_id, (reqOf 2 subP5).language_id, (reqOf 2 subP5).source,
            (reqOf 2 subP5).time_limit, (reqOf 2 subP5).memory_limit⟩] :=
  c8_override_merge envW ⟨1, [subP]⟩ { submission_id := 1, time_limit := some 5 } subP
    (St.mk 2 [subP, subP5]) (reqOf 2 subP5) (by decide) (by decide)

/-! ## C9 -/

/-- An environment in which the external editor cannot be launched, the
startup-warnings queue already deleted by `main` as in every real
session. -/
def envNoEditor : Env :=
  { problems := ["AMOEBA"], executors := ["PY2"],
    readFile := fun _ => none,
    editorLaunches := false, editorWrite := "", editorEdit := id,
    warningsDeleted := true }

/-- C9 names a code bug: when the editor cannot be launched, the
except-handler iterates `judgeenv.startup_warnings` — but `main` ran
`del judgeenv.startup_warnings` before the session loop, so the handler
itself raises an uncaught `AttributeError` and the session dies (in
`submit`, even with the queue intact, `src` would be left unbound and
the append would raise `NameError`).  The editor failure is fatal to
the session, not recovered with warnings printed. -/
theorem c9_editor_failure_fatal :
    SubmitCommand.execute envNoEditor initSt
        { problem_id := "AMOEBA", source_file := none, language_id := "PY2" }
      = .crash initSt "AttributeError: module dmoj.judgeenv has no attribute startup_warnings"
    ∧ ResubmitCommand.execute envNoEditor ⟨1, [subP]⟩ { submission_id := 1 }
      = .crash ⟨2, [subP]⟩
          "AttributeError: module dmoj.judgeenv has no attribute startup_warnings" :=
  ⟨by decide, by decide⟩

/-! ## C10 -/

/-- C10: for every in-range id `k`, the submission id `rejudge k` passes
to `begin_grading` is the current value of `submission_id_counter`, not
`k`. -/
theorem c10_rejudge_counter_id (env : Env) (st : St) (k : Int) (base : Submission)
    (h1 : 1 ≤ k)
    (hbase : st.graded_submissions[(k - 1).toNat]? = some base) :
    ∃ req, RejudgeCommand.execute env st ⟨k⟩ = .ok st req
      ∧ req.id = st.submission_id_counter := by
  refine ⟨reqOf st.submission_id_counter base, ?_, rfl⟩
  have e1 : ledgerLookup st.graded_submissions k = some base :=
    (ledgerLookup_pos st.graded_submissions k h1).trans hbase
  unfold RejudgeCommand.execute
  simp only [e1]

/-- Witness for C10: rejudging entry 1 while the counter is 5 dispatches
id 5, not 1. -/
theorem c10_rejudge_counter_id_witness :
    ∃ req, RejudgeCommand.execute envW ⟨5, [subP]⟩ ⟨1⟩ = .ok ⟨5, [subP]⟩ req
      ∧ req.id = 5 :=
  c10_rejudge_counter_id envW ⟨5, [subP]⟩ 1 subP (by decide) (by decide)
